import Mathlib

/-!
Verification of the filter/search/sort engine, the selection-state reducer and
the comparison-radar normalization of the methods-catalog front-end.

The definitions below are a shallow embedding of `src/lib/filters.js`,
`src/lib/state.jsx` (the app reducer) and the radar-chart normalization of
`src/viz/LandscapeViz.js`.  JavaScript values that can be `undefined`/`null`
are modelled with `Option`; JavaScript truthiness tests are modelled
explicitly (empty string and `0` are falsy); comparisons against `undefined`
evaluate to `false`, as in JavaScript.
-/

/-! ## Data model -/

/-- Reference block of a method; only the publication year matters to the
filter engine.  `method.references?.year` may be absent, hence `Option`. -/
structure References where
  year : Option Int
deriving Repr, DecidableEq

/-- A catalog method record, restricted to the fields read by the filter,
sort and radar code.  `searchScore` is absent on raw methods and attached by
`searchMethods` to search results. -/
structure Method where
  id : String
  name : String
  pipeline_step : String
  short_description : String
  modalities : List String
  tasks : List String
  inputs : List String
  outputs : List String
  evidence_type : String
  maturity : String
  automation_level : String
  references : References
  searchScore : Option ℚ := none
deriving Repr, DecidableEq

/-- The `yearRange` object of a FilterState. -/
structure YearRange where
  min : Option Int
  max : Option Int
deriving Repr, DecidableEq

/-- FilterState as in `FILTER_DEFAULTS` of filters.js. -/
structure FilterState where
  pipelineStep : Option String
  modalities : List String
  tasks : List String
  evidenceTypes : List String
  maturityLevels : List String
  yearRange : YearRange
  searchQuery : String
deriving Repr, DecidableEq

/-- `FILTER_DEFAULTS` from filters.js. -/
def FILTER_DEFAULTS : FilterState :=
  { pipelineStep := none
    modalities := []
    tasks := []
    evidenceTypes := []
    maturityLevels := []
    yearRange := { min := none, max := none }
    searchQuery := "" }

/-! ## Search index

`fuse.js` is an external dependency; the index is modelled as an abstract
search function, exactly the role the `searchIndex` argument plays in
`filters.js`.  A result carries the matched item and its fuzzy score. -/

/-- One Fuse search result: the matched method and its score. -/
structure SearchResult where
  item : Method
  score : ℚ
deriving Repr, DecidableEq

/-- Abstract search index: `search` returns the ranked fuzzy matches of a
query, modelling `Fuse.prototype.search`. -/
structure SearchIndex where
  search : String → List SearchResult

/-- Executable model of JavaScript `String.prototype.trim`: strips leading
and trailing whitespace. -/
def jsTrim (s : String) : String :=
  ⟨((s.data.dropWhile Char.isWhitespace).reverse.dropWhile Char.isWhitespace).reverse⟩

/-- Embedding of `searchMethods` (filters.js lines 48-59): a query that is
falsy or whose trimmed length is below 2 yields the "no filter" sentinel
`none`; otherwise the index results are mapped, attaching `searchScore`. -/
def searchMethods (searchIndex : SearchIndex) (query : String) : Option (List Method) :=
  if query = "" ∨ (jsTrim query).length < 2 then
    none
  else
    some ((searchIndex.search (jsTrim query)).map
      (fun r => { r.item with searchScore := some r.score }))

/-! ## Filter engine (filters.js `filterMethods`)

Each guarded early-return block of `filterMethods` becomes one predicate. -/

/-- Pipeline-step block: `if (pipelineStep && method.pipeline_step !== pipelineStep) return false`.
A `null` or empty-string selector is falsy and imposes no restriction. -/
def passesStep (f : FilterState) (m : Method) : Bool :=
  match f.pipelineStep with
  | none => true
  | some p => if p = "" then true else m.pipeline_step == p

/-- Modalities block: OR over the selector set, non-empty selector only. -/
def passesModalities (f : FilterState) (m : Method) : Bool :=
  if f.modalities.length > 0 then
    m.modalities.any (fun x => f.modalities.contains x)
  else true

/-- Tasks block: OR over the selector set, non-empty selector only. -/
def passesTasks (f : FilterState) (m : Method) : Bool :=
  if f.tasks.length > 0 then
    m.tasks.any (fun x => f.tasks.contains x)
  else true

/-- Evidence-type block: membership in the selector set when non-empty. -/
def passesEvidence (f : FilterState) (m : Method) : Bool :=
  if f.evidenceTypes.length > 0 then
    f.evidenceTypes.contains m.evidence_type
  else true

/-- Maturity block: membership in the selector set when non-empty. -/
def passesMaturity (f : FilterState) (m : Method) : Bool :=
  if f.maturityLevels.length > 0 then
    f.maturityLevels.contains m.maturity
  else true

/-- JavaScript `year < bound` where `year` may be `undefined`:
`undefined < n` is `false`. -/
def jsLtYear : Option Int → Int → Bool
  | none, _ => false
  | some y, v => y < v

/-- JavaScript `year > bound` where `year` may be `undefined`. -/
def jsGtYear : Option Int → Int → Bool
  | none, _ => false
  | some y, v => v < y

/-- Year-range block (filters.js lines 109-114):
`if (yearRange.min && year < yearRange.min) return false;`
`if (yearRange.max && year > yearRange.max) return false;`
A `null` or `0` bound is falsy and skipped; when a bound is set, an absent
year makes the JavaScript comparison `false`, so the method is NOT excluded. -/
def passesYear (f : FilterState) (m : Method) : Bool :=
  (match f.yearRange.min with
   | none => true
   | some mn => if mn = 0 then true else !(jsLtYear m.references.year mn)) &&
  (match f.yearRange.max with
   | none => true
   | some mx => if mx = 0 then true else !(jsGtYear m.references.year mx))

/-- The body of the `methods.filter` callback in `filterMethods`: the
sequential early-return blocks are an AND of the six category predicates. -/
def methodPassesFilters (f : FilterState) (m : Method) : Bool :=
  passesStep f m && passesModalities f m && passesTasks f m &&
  passesEvidence f m && passesMaturity f m && passesYear f m

/-- Embedding of `filterMethods` (filters.js lines 67-118). -/
def filterMethods (methods : List Method) (f : FilterState) : List Method :=
  methods.filter (methodPassesFilters f)

/-- Embedding of `applyFiltersAndSearch` (filters.js lines 127-142): when the
query is truthy and its trimmed length is at least 2 the working set is
replaced by the search results (the inner null-check mirrors
`if (searchResults)`), then `filterMethods` is applied. -/
def applyFiltersAndSearch (methods : List Method) (searchIndex : SearchIndex)
    (f : FilterState) : List Method :=
  filterMethods
    (if f.searchQuery ≠ "" ∧ 2 ≤ (jsTrim f.searchQuery).length then
      match searchMethods searchIndex f.searchQuery with
      | some rs => rs
      | none => methods
     else methods) f

/-! ## Sort engine (filters.js `sortMethods`)

JavaScript `Array.prototype.sort` with a consistent comparator is a stable
sort: element `a` precedes `b` whenever `comparator(a, b) <= 0` holds in a
stable order.  It is embedded as `List.mergeSort` over that relation. -/

/-- Sign model of `String.prototype.localeCompare`: negative, zero or
positive according to the lexicographic order of the two strings. -/
def localeCmp (a b : String) : ℚ :=
  if a < b then -1 else if b < a then 1 else 0

/-- `a.references?.year || 0`: a missing year (and a year of `0`) is 0. -/
def yearOr0 (m : Method) : Int :=
  m.references.year.getD 0

/-- `maturityOrder[a.maturity] || 0` with
`{ research: 0, emerging: 1, established: 2, mature: 3 }`: an unknown level
(and `research`, whose rank 0 is falsy) yields 0. -/
def maturityRank (s : String) : Int :=
  if s = "emerging" then 1
  else if s = "established" then 2
  else if s = "mature" then 3
  else 0

/-- `a.searchScore || 1`: a missing score is 1, and a score of exactly `0`
is falsy in JavaScript, so it also becomes 1. -/
def scoreOr1 (m : Method) : ℚ :=
  match m.searchScore with
  | none => 1
  | some s => if s = 0 then 1 else s

/-- The `switch (sortBy)` comparator body of `sortMethods`
(filters.js lines 192-214); unknown keys compare as 0. -/
def sortComparison (sortBy : String) (a b : Method) : ℚ :=
  if sortBy = "name" then localeCmp a.name b.name
  else if sortBy = "year" then ((yearOr0 a : ℚ) - (yearOr0 b : ℚ))
  else if sortBy = "maturity" then ((maturityRank a.maturity : ℚ) - (maturityRank b.maturity : ℚ))
  else if sortBy = "pipeline_step" then localeCmp a.pipeline_step b.pipeline_step
  else if sortBy = "searchScore" then scoreOr1 a - scoreOr1 b
  else 0

/-- The effective "a before-or-tied-with b" relation of the sort:
`order === 'desc'` only negates the comparator sign
(filters.js line 216). -/
def sortLe (sortBy order : String) (a b : Method) : Bool :=
  decide ((if order = "desc" then -(sortComparison sortBy a b)
           else sortComparison sortBy a b) ≤ 0)

/-- Embedding of `sortMethods` (filters.js lines 187-220): stable sort of a
copy of the input by the keyed comparator. -/
def sortMethods (methods : List Method) (sortBy : String := "name")
    (order : String := "asc") : List Method :=
  methods.mergeSort (sortLe sortBy order)

/-! ## Selection/UI state store (the app reducer) -/

/-- A pipeline-step descriptor from the dataset. -/
structure PipelineStep where
  id : String
  name : String
  order : Int
deriving Repr, DecidableEq

/-- The loaded dataset as stored by `SET_DATA`. -/
structure MethodsData where
  methods : List Method
  pipeline_steps : List PipelineStep

/-- Partial FilterState payload of `SET_FILTERS`; `none` fields are absent
from the payload object and left untouched by the shallow merge. -/
structure FilterPartial where
  pipelineStep : Option (Option String) := none
  modalities : Option (List String) := none
  tasks : Option (List String) := none
  evidenceTypes : Option (List String) := none
  maturityLevels : Option (List String) := none
  yearRange : Option YearRange := none
  searchQuery : Option String := none

/-- Shallow merge `{ ...state.filters, ...action.payload }`. -/
def mergeFilters (f : FilterState) (p : FilterPartial) : FilterState :=
  { pipelineStep := p.pipelineStep.getD f.pipelineStep
    modalities := p.modalities.getD f.modalities
    tasks := p.tasks.getD f.tasks
    evidenceTypes := p.evidenceTypes.getD f.evidenceTypes
    maturityLevels := p.maturityLevels.getD f.maturityLevels
    yearRange := p.yearRange.getD f.yearRange
    searchQuery := p.searchQuery.getD f.searchQuery }

/-- The application state tree (`initialState` shape in state.jsx). -/
structure AppState where
  data : Option MethodsData
  loading : Bool
  error : Option String
  validationErrors : List String
  filters : FilterState
  selectedStep : Option String
  selectedModality : Option String
  selectedMethodId : Option String
  hoveredMethodId : Option String
  compareMethodIds : List String
  isCompareMode : Bool
  showFilters : Bool
  sortBy : String
  sortOrder : String
  searchIndex : Option SearchIndex

/-- The closed action set of the store (the `ACTIONS` table). -/
inductive StoreAction where
  | setData (payload : MethodsData)
  | setError (payload : String)
  | setLoading (payload : Bool)
  | setValidationErrors (payload : List String)
  | setFilters (payload : FilterPartial)
  | resetFilters
  | setSelectedStep (payload : Option String)
  | setSelectedModality (payload : Option String)
  | setSelectedMethod (payload : Option String)
  | setHoveredMethod (payload : Option String)
  | toggleCompareMethod (payload : String)
  | clearCompare
  | setCompareMode (payload : Bool)
  | toggleFilters
  | setSort (sortBy : String) (order : String)
  | setSearchIndex (payload : SearchIndex)

/-- Embedding of `appReducer` (state.jsx).  Note that
`SET_SELECTED_MODALITY` writes `selectedStep: 'collect'` and
`pipelineStep: 'collect'` unconditionally, for a `null` payload too; the
modalities selector becomes `[payload]` only when the payload is truthy
(`action.payload ? [action.payload] : []`). -/
def appReducer (s : AppState) (a : StoreAction) : AppState :=
  match a with
  | .setData d => { s with data := some d, loading := false, error := none }
  | .setError e => { s with error := some e, loading := false }
  | .setLoading b => { s with loading := b }
  | .setValidationErrors es => { s with validationErrors := es }
  | .setFilters p => { s with filters := mergeFilters s.filters p }
  | .resetFilters =>
      { s with filters := FILTER_DEFAULTS, selectedStep := none, selectedModality := none }
  | .setSelectedStep stepId =>
      { s with
        selectedStep := stepId
        selectedModality := none
        filters := { s.filters with pipelineStep := stepId, modalities := [] } }
  | .setSelectedModality mid =>
      { s with
        selectedStep := some "collect"
        selectedModality := mid
        filters :=
          { s.filters with
            pipelineStep := some "collect"
            modalities := match mid with
              | some v => if v = "" then [] else [v]
              | none => [] } }
  | .setSelectedMethod mid => { s with selectedMethodId := mid }
  | .setHoveredMethod mid => { s with hoveredMethodId := mid }
  | .toggleCompareMethod mid =>
      { s with compareMethodIds :=
          if mid ∈ s.compareMethodIds then
            s.compareMethodIds.filter (fun i => i != mid)
          else if s.compareMethodIds.length < 3 then
            s.compareMethodIds ++ [mid]
          else
            s.compareMethodIds }
  | .clearCompare => { s with compareMethodIds := [], isCompareMode := false }
  | .setCompareMode b => { s with isCompareMode := b }
  | .toggleFilters => { s with showFilters := !s.showFilters }
  | .setSort sb o => { s with sortBy := sb, sortOrder := o }
  | .setSearchIndex idx => { s with searchIndex := some idx }

/-- The `initialState` object of state.jsx. -/
def initialState : AppState :=
  { data := none
    loading := true
    error := none
    validationErrors := []
    filters := FILTER_DEFAULTS
    selectedStep := none
    selectedModality := none
    selectedMethodId := none
    hoveredMethodId := none
    compareMethodIds := []
    isCompareMode := false
    showFilters := false
    sortBy := "name"
    sortOrder := "asc"
    searchIndex := none }

/-! ## Comparison radar chart normalization (LandscapeViz.js) -/

/-- `MATURITY_ORDER` lookup of LandscapeViz.js: `undefined` for unknown keys. -/
def MATURITY_ORDER (s : String) : Option Int :=
  if s = "research" then some 0
  else if s = "emerging" then some 1
  else if s = "established" then some 2
  else if s = "mature" then some 3
  else none

/-- `AUTOMATION_ORDER` lookup of LandscapeViz.js. -/
def AUTOMATION_ORDER (s : String) : Option Int :=
  if s = "manual" then some 0
  else if s = "semi-automated" then some 1
  else if s = "automated" then some 2
  else none

/-- `list?.length || 1` of the radar value computation: an absent list or a
length of `0` is falsy and becomes 1. -/
def countOr1 (l : List String) : Nat :=
  if l.length = 0 then 1 else l.length

/-- Radar dimension `maturity`: `(MATURITY_ORDER[method.maturity] ?? 1) / 3`. -/
def radarMaturity (m : Method) : ℚ :=
  (((MATURITY_ORDER m.maturity).getD 1 : Int) : ℚ) / 3

/-- Radar dimension `automation`: `(AUTOMATION_ORDER[method.automation_level] ?? 1) / 2`. -/
def radarAutomation (m : Method) : ℚ :=
  (((AUTOMATION_ORDER m.automation_level).getD 1 : Int) : ℚ) / 2

/-- Radar dimension `modalities`: `Math.min(method.modalities?.length || 1, 6) / 6`. -/
def radarModalities (m : Method) : ℚ :=
  ((min (countOr1 m.modalities) 6 : Nat) : ℚ) / 6

/-- Radar dimension `tasks`: `Math.min(method.tasks?.length || 1, 10) / 10`. -/
def radarTasks (m : Method) : ℚ :=
  ((min (countOr1 m.tasks) 10 : Nat) : ℚ) / 10

/-- Radar dimension `inputs`: `Math.min(method.inputs?.length || 1, 5) / 5`. -/
def radarInputs (m : Method) : ℚ :=
  ((min (countOr1 m.inputs) 5 : Nat) : ℚ) / 5

/-- Radar dimension `outputs`: `Math.min(method.outputs?.length || 1, 5) / 5`. -/
def radarOutputs (m : Method) : ℚ :=
  ((min (countOr1 m.outputs) 5 : Nat) : ℚ) / 5

/-- The six plotted values of one method, in the order of the `dimensions`
table of `createComparisonVisualization` (LandscapeViz.js lines 389-458). -/
def radarValues (m : Method) : List ℚ :=
  [radarMaturity m, radarAutomation m, radarModalities m,
   radarTasks m, radarInputs m, radarOutputs m]

/-! ## Concrete fixtures used by counterexamples and witnesses -/

/-- A search index whose `search` never matches anything. -/
def emptyIndex : SearchIndex :=
  { search := fun _ => [] }

/-- A baseline concrete method record. -/
def baseMethod : Method :=
  { id := "m-base"
    name := "Base"
    pipeline_step := "preprocess"
    short_description := "d"
    modalities := ["text"]
    tasks := ["cleaning"]
    inputs := ["log"]
    outputs := ["model"]
    evidence_type := "benchmark"
    maturity := "emerging"
    automation_level := "automated"
    references := { year := some 2021 }
    searchScore := none }

/-- A concrete method with an absent `references.year`. -/
def methodNoYear : Method :=
  { baseMethod with id := "m-noyear", name := "NoYear", references := { year := none } }

/-- A concrete filter whose year range has `min = 2020` set. -/
def yearMinFilter : FilterState :=
  { FILTER_DEFAULTS with yearRange := { min := some 2020, max := none } }

/-- A concrete method whose `tasks` list is empty. -/
def methodNoTasks : Method :=
  { baseMethod with id := "m-notasks", name := "NoTasks", tasks := [] }

/-- A concrete method with 20 tasks. -/
def methodManyTasks : Method :=
  { baseMethod with
    id := "m-manytasks"
    name := "ManyTasks"
    tasks := (List.range 20).map (fun i => "t" ++ toString i) }

/-- A concrete method with exactly 10 tasks. -/
def methodTenTasks : Method :=
  { baseMethod with
    id := "m-tentasks"
    name := "TenTasks"
    tasks := (List.range 10).map (fun i => "t" ++ toString i) }

/-- A concrete method whose publication year is exactly 2020. -/
def methodYear2020 : Method :=
  { baseMethod with id := "m-2020", name := "Year2020", references := { year := some 2020 } }

/-- A concrete filter selecting the `text` modality only. -/
def textFilter : FilterState :=
  { FILTER_DEFAULTS with modalities := ["text"] }

/-- Two concrete methods sharing the name `Alpha` (equal sort keys). -/
def methodAlpha1 : Method :=
  { baseMethod with id := "m-alpha-1", name := "Alpha" }

/-- Second method named `Alpha`, distinct id. -/
def methodAlpha2 : Method :=
  { baseMethod with id := "m-alpha-2", name := "Alpha" }

/-- A concrete search hit with the perfect fuzzy score 0. -/
def methodScoreZero : Method :=
  { baseMethod with id := "m-score0", name := "ScoreZero", searchScore := some 0 }

/-- A concrete search hit with score 1/2. -/
def methodScoreHalf : Method :=
  { baseMethod with id := "m-score05", name := "ScoreHalf", searchScore := some (1 / 2) }

/-- A concrete store state whose compare set already holds three ids. -/
def threeCompareState : AppState :=
  { initialState with compareMethodIds := ["m-1", "m-2", "m-3"] }

/-! ## Theorems -/

/-- C5: with every selector set empty, both year bounds null and an empty
search query, `applyFiltersAndSearch` returns the full input list in its
original order. -/
theorem applyFiltersAndSearch_id (methods : List Method) (searchIndex : SearchIndex)
    (f : FilterState)
    (h1 : f.pipelineStep = none) (h2 : f.modalities = []) (h3 : f.tasks = [])
    (h4 : f.evidenceTypes = []) (h5 : f.maturityLevels = [])
    (h6 : f.yearRange.min = none) (h7 : f.yearRange.max = none)
    (h8 : f.searchQuery = "") :
    applyFiltersAndSearch methods searchIndex f = methods := by
  unfold applyFiltersAndSearch
  rw [if_neg (by simp [h8])]
  unfold filterMethods
  apply List.filter_eq_self.mpr
  intro m _
  unfold methodPassesFilters passesStep passesModalities passesTasks
    passesEvidence passesMaturity passesYear
  rw [h1, h2, h3, h4, h5, h6, h7]
  rfl

/-- Witness for C5 at a concrete two-method list and the default filters. -/
theorem applyFiltersAndSearch_id_witness :
    applyFiltersAndSearch [baseMethod, methodNoYear] emptyIndex FILTER_DEFAULTS =
      [baseMethod, methodNoYear] :=
  applyFiltersAndSearch_id [baseMethod, methodNoYear] emptyIndex FILTER_DEFAULTS
    rfl rfl rfl rfl rfl rfl rfl rfl

/-- C4: with an empty search query, a method appears in the output of
`applyFiltersAndSearch` iff it is in the input and passes every filter
category; a category whose selector is empty imposes no restriction. -/
theorem filter_conjunction_law (methods : List Method) (searchIndex : SearchIndex)
    (f : FilterState) (m : Method) (hq : f.searchQuery = "") :
    (m ∈ applyFiltersAndSearch methods searchIndex f ↔
      m ∈ methods ∧ passesStep f m = true ∧ passesModalities f m = true ∧
      passesTasks f m = true ∧ passesEvidence f m = true ∧
      passesMaturity f m = true ∧ passesYear f m = true) ∧
    (f.pipelineStep = none → passesStep f m = true) ∧
    (f.modalities = [] → passesModalities f m = true) ∧
    (f.tasks = [] → passesTasks f m = true) ∧
    (f.evidenceTypes = [] → passesEvidence f m = true) ∧
    (f.maturityLevels = [] → passesMaturity f m = true) ∧
    (f.yearRange.min = none → f.yearRange.max = none → passesYear f m = true) := by
  refine ⟨?_, ?_, ?_, ?_, ?_, ?_, ?_⟩
  · have hskip : applyFiltersAndSearch methods searchIndex f = filterMethods methods f := by
      unfold applyFiltersAndSearch
      rw [if_neg (by simp [hq])]
    rw [hskip]
    unfold filterMethods
    rw [List.mem_filter]
    unfold methodPassesFilters
    simp [Bool.and_eq_true, and_assoc]
  · intro h; unfold passesStep; rw [h]
  · intro h; unfold passesModalities; rw [h]; simp
  · intro h; unfold passesTasks; rw [h]; simp
  · intro h; unfold passesEvidence; rw [h]; simp
  · intro h; unfold passesMaturity; rw [h]; simp
  · intro h1 h2; unfold passesYear; rw [h1, h2]; rfl

/-- Witness for C4 at a concrete method and a modality-only filter. -/
theorem filter_conjunction_law_witness :
    baseMethod ∈ applyFiltersAndSearch [baseMethod] emptyIndex textFilter ↔
      baseMethod ∈ [baseMethod] ∧ passesStep textFilter baseMethod = true ∧
      passesModalities textFilter baseMethod = true ∧
      passesTasks textFilter baseMethod = true ∧
      passesEvidence textFilter baseMethod = true ∧
      passesMaturity textFilter baseMethod = true ∧
      passesYear textFilter baseMethod = true :=
  (filter_conjunction_law [baseMethod] emptyIndex textFilter baseMethod rfl).1

/-- C1 counterexample: a method with an absent `references.year` is RETAINED
by `filterMethods` (and `applyFiltersAndSearch`) although `yearRange.min` is
set, because the JavaScript comparison `undefined < min` is false — the
claimed exclusion does not hold. -/
theorem yearRange_absent_year_cex :
    methodNoYear ∈ filterMethods [methodNoYear] yearMinFilter ∧
    methodNoYear ∈ applyFiltersAndSearch [methodNoYear] emptyIndex yearMinFilter := by
  constructor <;> decide

/-- C1 (amended): the year filter is inclusive at both bounds; for a present
year it demands `min ≤ year ≤ max` over the truthy bounds, but a method with
an ABSENT year always passes the year category, even when a bound is set
(and a bound of `0` is falsy, hence ignored). -/
theorem yearRange_inclusive_amended (f : FilterState) (m : Method) :
    (passesYear f m = true ↔
      ((∀ mn, f.yearRange.min = some mn → mn ≠ 0 →
          ∀ y, m.references.year = some y → mn ≤ y) ∧
       (∀ mx, f.yearRange.max = some mx → mx ≠ 0 →
          ∀ y, m.references.year = some y → y ≤ mx))) ∧
    (m.references.year = none → passesYear f m = true) ∧
    (∀ y, m.references.year = some y → f.yearRange.min = some y →
      (∀ mx, f.yearRange.max = some mx → mx ≠ 0 → y ≤ mx) →
      passesYear f m = true) ∧
    (∀ y, m.references.year = some y → f.yearRange.max = some y →
      (∀ mn, f.yearRange.min = some mn → mn ≠ 0 → mn ≤ y) →
      passesYear f m = true) := by
  have main : passesYear f m = true ↔
      ((∀ mn, f.yearRange.min = some mn → mn ≠ 0 →
          ∀ y, m.references.year = some y → mn ≤ y) ∧
       (∀ mx, f.yearRange.max = some mx → mx ≠ 0 →
          ∀ y, m.references.year = some y → y ≤ mx)) := by
    unfold passesYear jsLtYear jsGtYear
    cases hy : m.references.year <;>
      cases hmin : f.yearRange.min <;>
        cases hmax : f.yearRange.max <;>
          simp_all
    all_goals tauto
  refine ⟨main, ?_, ?_, ?_⟩
  · intro hy
    refine main.mpr ⟨?_, ?_⟩ <;>
      · intro _ _ _ y hy'
        rw [hy] at hy'
        exact Option.noConfusion hy' 
  · intro y hy hmin hmaxbound
    refine main.mpr ⟨?_, ?_⟩
    · intro mn hmn _ y' hy'
      rw [hmin] at hmn
      rw [hy] at hy'
      cases hmn
      cases hy'
      exact le_refl y
    · intro mx hmx hmx0 y' hy'
      rw [hy] at hy'
      cases hy'
      exact hmaxbound mx hmx hmx0
  · intro y hy hmax hminbound
    refine main.mpr ⟨?_, ?_⟩
    · intro mn hmn hmn0 y' hy'
      rw [hy] at hy'
      cases hy'
      exact hminbound mn hmn hmn0
    · intro mx hmx _ y' hy'
      rw [hmax] at hmx
      rw [hy] at hy'
      cases hmx
      cases hy'
      exact le_refl y

/-- Witness for C1 (amended): a method whose year is exactly the set `min`
bound is retained by the year category. -/
theorem yearRange_inclusive_amended_witness :
    passesYear yearMinFilter methodYear2020 = true :=
  (yearRange_inclusive_amended yearMinFilter methodYear2020).2.2.1 2020 rfl rfl
    (fun mx hmx _ => by simp [yearMinFilter, FILTER_DEFAULTS] at hmx)

/-- C9: a query whose trimmed length is below 2 yields the `none` sentinel
and leaves the full working set to the filters; a query of trimmed length at
least 2 that the index does not match anywhere yields `some []`, distinct
from the sentinel. -/
theorem searchMethods_sentinel (searchIndex : SearchIndex) (q : String)
    (methods : List Method) (f : FilterState) :
    ((jsTrim q).length < 2 → searchMethods searchIndex q = none) ∧
    ((jsTrim f.searchQuery).length < 2 →
      applyFiltersAndSearch methods searchIndex f = filterMethods methods f) ∧
    (2 ≤ (jsTrim q).length → searchIndex.search (jsTrim q) = [] →
      searchMethods searchIndex q = some [] ∧ searchMethods searchIndex q ≠ none) := by
  refine ⟨?_, ?_, ?_⟩
  · intro h
    unfold searchMethods
    rw [if_pos (Or.inr h)]
  · intro h
    unfold applyFiltersAndSearch
    rw [if_neg]
    rintro ⟨-, h2⟩
    omega
  · intro h2 hempty
    have hne : ¬(q = "" ∨ (jsTrim q).length < 2) := by
      rintro (rfl | hlt)
      · have hz : (jsTrim "").length = 0 := rfl
        omega
      · omega
    unfold searchMethods
    rw [if_neg hne, hempty]
    exact ⟨rfl, by simp⟩

/-- Witness for C9: one-character query gives the sentinel; the
three-character query `abc` on an index with no matches gives `some []`. -/
theorem searchMethods_sentinel_witness :
    searchMethods emptyIndex "a" = none ∧ searchMethods emptyIndex "abc" = some [] :=
  ⟨(searchMethods_sentinel emptyIndex "a" [] FILTER_DEFAULTS).1 (by decide),
   ((searchMethods_sentinel emptyIndex "abc" [] FILTER_DEFAULTS).2.2 (by decide) rfl).1⟩

/-- C2 counterexample: dispatching `setSelectedModality(null)` does NOT clear
the stage selection — the reducer writes `selectedStep: 'collect'` and
`pipelineStep: 'collect'` unconditionally. -/
theorem setSelectedModality_null_cex :
    (appReducer initialState (StoreAction.setSelectedModality none)).selectedStep ≠ none ∧
    (appReducer initialState (StoreAction.setSelectedModality none)).selectedStep = some "collect" ∧
    (appReducer initialState (StoreAction.setSelectedModality none)).filters.pipelineStep = some "collect" := by
  refine ⟨?_, rfl, rfl⟩
  intro h
  exact Option.noConfusion h

/-- C2 (amended): `setSelectedModality` with a non-null id forces the stage
selector to `collect` and the modality selector to the singleton of that id;
with `null` it clears the modality selection (`selectedModality = null`,
empty modality selector) but still forces the stage selector and the
`pipelineStep` filter to `collect`. -/
theorem setSelectedModality_amended (s : AppState) (mid : String) (hm : mid ≠ "") :
    ((appReducer s (StoreAction.setSelectedModality (some mid))).selectedStep = some "collect" ∧
     (appReducer s (StoreAction.setSelectedModality (some mid))).selectedModality = some mid ∧
     (appReducer s (StoreAction.setSelectedModality (some mid))).filters.pipelineStep = some "collect" ∧
     (appReducer s (StoreAction.setSelectedModality (some mid))).filters.modalities = [mid]) ∧
    ((appReducer s (StoreAction.setSelectedModality none)).selectedStep = some "collect" ∧
     (appReducer s (StoreAction.setSelectedModality none)).selectedModality = none ∧
     (appReducer s (StoreAction.setSelectedModality none)).filters.pipelineStep = some "collect" ∧
     (appReducer s (StoreAction.setSelectedModality none)).filters.modalities = []) := by
  refine ⟨⟨rfl, rfl, rfl, ?_⟩, rfl, rfl, rfl, rfl⟩
  simp [appReducer, hm]

/-- Witness for C2 (amended) at the initial state and the `image` modality. -/
theorem setSelectedModality_amended_witness :
    (appReducer initialState (StoreAction.setSelectedModality (some "image"))).selectedStep = some "collect" ∧
    (appReducer initialState (StoreAction.setSelectedModality (some "image"))).filters.modalities = ["image"] :=
  ⟨(setSelectedModality_amended initialState "image" (by decide)).1.1,
   (setSelectedModality_amended initialState "image" (by decide)).1.2.2.2⟩

/-- C7: `setSelectedStep` sets the stage filter to the payload and clears
both the modality selector and the selected-modality field; in particular
`setSelectedModality('image')` followed by `setSelectedStep('preprocess')`
yields stage filter `preprocess` and an empty modality selector. -/
theorem setSelectedStep_clears_modality (s : AppState) (stepId : Option String) :
    ((appReducer s (StoreAction.setSelectedStep stepId)).selectedStep = stepId ∧
     (appReducer s (StoreAction.setSelectedStep stepId)).filters.pipelineStep = stepId ∧
     (appReducer s (StoreAction.setSelectedStep stepId)).selectedModality = none ∧
     (appReducer s (StoreAction.setSelectedStep stepId)).filters.modalities = []) ∧
    ((appReducer (appReducer s (StoreAction.setSelectedModality (some "image")))
        (StoreAction.setSelectedStep (some "preprocess"))).filters.pipelineStep = some "preprocess" ∧
     (appReducer (appReducer s (StoreAction.setSelectedModality (some "image")))
        (StoreAction.setSelectedStep (some "preprocess"))).filters.modalities = [] ∧
     (appReducer (appReducer s (StoreAction.setSelectedModality (some "image")))
        (StoreAction.setSelectedStep (some "preprocess"))).selectedModality = none) :=
  ⟨⟨rfl, rfl, rfl, rfl⟩, rfl, rfl, rfl⟩

/-- Removing one occurrence by `filter` from a duplicate-free list drops the
length by exactly one. -/
theorem length_filter_bne_of_nodup {l : List String} {a : String}
    (hnd : l.Nodup) (hmem : a ∈ l) :
    (l.filter (fun i => i != a)).length = l.length - 1 := by
  induction l with
  | nil => cases hmem
  | cons x xs ih =>
    have hx_not_mem : x ∉ xs := (List.nodup_cons.mp hnd).1
    have hnd' : xs.Nodup := (List.nodup_cons.mp hnd).2
    rw [List.filter_cons]
    by_cases hax : x = a
    · subst hax
      have hx_false : (x != x) = false := by simp
      rw [hx_false]
      have hfilter : xs.filter (fun i => i != x) = xs :=
        List.filter_eq_self.mpr (fun b hb => by
          simp only [bne_iff_ne, ne_eq]
          intro hbx
          exact hx_not_mem (hbx ▸ hb))
      simp [hfilter]
    · have hx : a ∈ xs := by
        rcases List.mem_cons.mp hmem with h | h
        · exact absurd h.symm hax
        · exact h
      have hx_true : (x != a) = true := by simp [hax]
      rw [hx_true]
      have hpos : 0 < xs.length := List.length_pos_of_mem hx
      simp only [if_true, List.length_cons, ih hnd' hx]
      omega

/-- C6: the compare set stays within size 3 and duplicate-free under every
action; toggling an id already present removes it (one fewer element);
toggling a new id appends when the size is below 3 and is a no-op at size
exactly 3 — no entry is evicted. -/
theorem compareSet_invariant (s : AppState)
    (hlen : s.compareMethodIds.length ≤ 3) (hnd : s.compareMethodIds.Nodup) :
    (∀ a : StoreAction, (appReducer s a).compareMethodIds.length ≤ 3 ∧
      (appReducer s a).compareMethodIds.Nodup) ∧
    (∀ mid, mid ∈ s.compareMethodIds →
      (appReducer s (StoreAction.toggleCompareMethod mid)).compareMethodIds =
        s.compareMethodIds.filter (fun i => i != mid) ∧
      (appReducer s (StoreAction.toggleCompareMethod mid)).compareMethodIds.length =
        s.compareMethodIds.length - 1) ∧
    (∀ mid, mid ∉ s.compareMethodIds → s.compareMethodIds.length < 3 →
      (appReducer s (StoreAction.toggleCompareMethod mid)).compareMethodIds =
        s.compareMethodIds ++ [mid]) ∧
    (∀ mid, mid ∉ s.compareMethodIds → s.compareMethodIds.length = 3 →
      (appReducer s (StoreAction.toggleCompareMethod mid)).compareMethodIds =
        s.compareMethodIds) := by
  refine ⟨?_, ?_, ?_, ?_⟩
  · intro a
    cases a <;> try exact ⟨hlen, hnd⟩
    case toggleCompareMethod mid =>
      show ((if mid ∈ s.compareMethodIds then
          s.compareMethodIds.filter (fun i => i != mid)
        else if s.compareMethodIds.length < 3 then
          s.compareMethodIds ++ [mid]
        else s.compareMethodIds).length ≤ 3 ∧
        (if mid ∈ s.compareMethodIds then
          s.compareMethodIds.filter (fun i => i != mid)
        else if s.compareMethodIds.length < 3 then
          s.compareMethodIds ++ [mid]
        else s.compareMethodIds).Nodup)
      split_ifs with hmem hsz
      · exact ⟨le_trans (List.length_filter_le _ _) hlen, hnd.filter _⟩
      · constructor
        · rw [List.length_append, List.length_singleton]
          omega
        · refine hnd.append (List.nodup_singleton mid) ?_
          intro x hx hx2
          rw [List.mem_singleton] at hx2
          exact hmem (hx2 ▸ hx)
      · exact ⟨hlen, hnd⟩
    case clearCompare =>
      exact ⟨by simp [appReducer], by simp [appReducer]⟩
  · intro mid hmem
    have hred : (appReducer s (StoreAction.toggleCompareMethod mid)).compareMethodIds =
        s.compareMethodIds.filter (fun i => i != mid) := by
      show (if mid ∈ s.compareMethodIds then
          s.compareMethodIds.filter (fun i => i != mid)
        else if s.compareMethodIds.length < 3 then
          s.compareMethodIds ++ [mid]
        else s.compareMethodIds) = s.compareMethodIds.filter (fun i => i != mid)
      rw [if_pos hmem]
    exact ⟨hred, by rw [hred]; exact length_filter_bne_of_nodup hnd hmem⟩
  · intro mid hmem hsz
    show (if mid ∈ s.compareMethodIds then
        s.compareMethodIds.filter (fun i => i != mid)
      else if s.compareMethodIds.length < 3 then
        s.compareMethodIds ++ [mid]
      else s.compareMethodIds) = s.compareMethodIds ++ [mid]
    rw [if_neg hmem, if_pos hsz]
  · intro mid hmem hsz
    show (if mid ∈ s.compareMethodIds then
        s.compareMethodIds.filter (fun i => i != mid)
      else if s.compareMethodIds.length < 3 then
        s.compareMethodIds ++ [mid]
      else s.compareMethodIds) = s.compareMethodIds
    rw [if_neg hmem, if_neg (by omega)]

/-- Witness for C6 at a concrete three-element compare set: a 4th id is
rejected, an existing id is removed leaving two. -/
theorem compareSet_invariant_witness :
    (appReducer threeCompareState (StoreAction.toggleCompareMethod "m-4")).compareMethodIds =
      ["m-1", "m-2", "m-3"] ∧
    (appReducer threeCompareState (StoreAction.toggleCompareMethod "m-2")).compareMethodIds.length = 2 :=
  ⟨(compareSet_invariant threeCompareState (by decide) (by decide)).2.2.2 "m-4"
      (by decide) rfl,
   (compareSet_invariant threeCompareState (by decide) (by decide)).2.1 "m-2"
      (by decide) |>.2⟩

/-- C3 counterexample: for a method with an empty `tasks` list the plotted
tasks dimension is `1/10`, not `min(0, 10)/10 = 0` — the code computes
`method.tasks?.length || 1`, so a zero count is replaced by 1. -/
theorem radar_zero_count_cex :
    radarTasks methodNoTasks = 1 / 10 ∧
    ((min methodNoTasks.tasks.length 10 : Nat) : ℚ) / 10 = 0 ∧
    radarTasks methodNoTasks ≠ ((min methodNoTasks.tasks.length 10 : Nat) : ℚ) / 10 := by
  refine ⟨by norm_num [radarTasks, countOr1, methodNoTasks, baseMethod], ?_, ?_⟩
  · norm_num [methodNoTasks, baseMethod]
  · norm_num [radarTasks, countOr1, methodNoTasks, baseMethod]

/-- C3 (amended): every radar dimension lies in `[0, 1]`; the count-based
dimensions equal `min(max(count, 1), cap)/cap` — a zero or absent count is
clamped up to 1 by `|| 1` — and each saturates at its cap (20 tasks plot the
same value 1.0 as 10 tasks); the rank dimensions are `maturity rank / 3` and
`automation rank / 2` whenever the level is a known enum value. -/
theorem radar_normalization_amended (m : Method) :
    (∀ v ∈ radarValues m, 0 ≤ v ∧ v ≤ 1) ∧
    (radarModalities m = ((min (max m.modalities.length 1) 6 : Nat) : ℚ) / 6) ∧
    (radarTasks m = ((min (max m.tasks.length 1) 10 : Nat) : ℚ) / 10) ∧
    (radarInputs m = ((min (max m.inputs.length 1) 5 : Nat) : ℚ) / 5) ∧
    (radarOutputs m = ((min (max m.outputs.length 1) 5 : Nat) : ℚ) / 5) ∧
    (6 ≤ m.modalities.length → radarModalities m = 1) ∧
    (10 ≤ m.tasks.length → radarTasks m = 1) ∧
    (5 ≤ m.inputs.length → radarInputs m = 1) ∧
    (5 ≤ m.outputs.length → radarOutputs m = 1) ∧
    (∀ r, MATURITY_ORDER m.maturity = some r → radarMaturity m = (r : ℚ) / 3) ∧
    (∀ r, AUTOMATION_ORDER m.automation_level = some r → radarAutomation m = (r : ℚ) / 2) := by
  have hcount : ∀ l : List String, countOr1 l = max l.length 1 := by
    intro l
    unfold countOr1
    split_ifs with h <;> omega
  have hbound : ∀ (n cap : Nat), 0 < cap →
      0 ≤ ((min n cap : Nat) : ℚ) / cap ∧ ((min n cap : Nat) : ℚ) / cap ≤ 1 := by
    intro n cap hcap
    constructor
    · positivity
    · rw [div_le_one (by exact_mod_cast hcap)]
      exact_mod_cast min_le_right n cap
  refine ⟨?_, ?_, ?_, ?_, ?_, ?_, ?_, ?_, ?_, ?_, ?_⟩
  · intro v hv
    have hmat : 0 ≤ radarMaturity m ∧ radarMaturity m ≤ 1 := by
      unfold radarMaturity MATURITY_ORDER
      split_ifs <;> norm_num
    have haut : 0 ≤ radarAutomation m ∧ radarAutomation m ≤ 1 := by
      unfold radarAutomation AUTOMATION_ORDER
      split_ifs <;> norm_num
    have hmod := hbound (countOr1 m.modalities) 6 (by norm_num)
    have htsk := hbound (countOr1 m.tasks) 10 (by norm_num)
    have hinp := hbound (countOr1 m.inputs) 5 (by norm_num)
    have hout := hbound (countOr1 m.outputs) 5 (by norm_num)
    simp only [radarValues, List.mem_cons, List.not_mem_nil, or_false] at hv
    rcases hv with rfl | rfl | rfl | rfl | rfl | rfl
    · exact hmat
    · exact haut
    · exact hmod
    · exact htsk
    · exact hinp
    · exact hout
  · unfold radarModalities; rw [hcount]
  · unfold radarTasks; rw [hcount]
  · unfold radarInputs; rw [hcount]
  · unfold radarOutputs; rw [hcount]
  · intro h
    unfold radarModalities
    rw [hcount, show min (max m.modalities.length 1) 6 = 6 by omega]
    norm_num
  · intro h
    unfold radarTasks
    rw [hcount, show min (max m.tasks.length 1) 10 = 10 by omega]
    norm_num
  · intro h
    unfold radarInputs
    rw [hcount, show min (max m.inputs.length 1) 5 = 5 by omega]
    norm_num
  · intro h
    unfold radarOutputs
    rw [hcount, show min (max m.outputs.length 1) 5 = 5 by omega]
    norm_num
  · intro r hr
    unfold radarMaturity
    rw [hr]
    rfl
  · intro r hr
    unfold radarAutomation
    rw [hr]
    rfl

/-- Witness for C3 (amended): 20 tasks and exactly 10 tasks both plot the
saturated tasks value 1. -/
theorem radar_normalization_amended_witness :
    radarTasks methodManyTasks = 1 ∧ radarTasks methodTenTasks = 1 :=
  ⟨(radar_normalization_amended methodManyTasks).2.2.2.2.2.2.1 (by decide),
   (radar_normalization_amended methodTenTasks).2.2.2.2.2.2.1 (by decide)⟩

/-- The sign comparator is non-positive exactly when the first string is
lexicographically at most the second. -/
theorem localeCmp_nonpos (a b : String) : localeCmp a b ≤ 0 ↔ a ≤ b := by
  unfold localeCmp
  split_ifs with h1 h2
  · constructor
    · intro _
      exact h1.le
    · intro _
      norm_num
  · constructor
    · intro hc
      norm_num at hc
    · intro hab
      exact absurd h2 (not_lt.mpr hab)
  · have hab : a = b := le_antisymm (not_lt.mp h2) (not_lt.mp h1)
    constructor
    · intro _
      exact hab.le
    · intro _
      norm_num

/-- The sign comparator is antisymmetric. -/
theorem localeCmp_neg (a b : String) : localeCmp a b = -localeCmp b a := by
  unfold localeCmp
  rcases lt_trichotomy a b with h | h | h
  · rw [if_pos h, if_neg h.asymm, if_pos h]
  · subst h
    simp [lt_irrefl]
  · rw [if_neg h.asymm, if_pos h, if_pos h]
    norm_num

/-- The keyed comparator of `sortMethods` is antisymmetric for every key. -/
theorem sortComparison_neg (k : String) (a b : Method) :
    sortComparison k a b = -sortComparison k b a := by
  unfold sortComparison
  split_ifs <;> first
    | apply localeCmp_neg
    | ring

/-- The keyed comparator of `sortMethods` is transitive on its non-positive
cone, for every key. -/
theorem sortComparison_trans (k : String) (a b c : Method) :
    sortComparison k a b ≤ 0 → sortComparison k b c ≤ 0 →
    sortComparison k a c ≤ 0 := by
  unfold sortComparison
  split_ifs <;> intro h1 h2 <;> first
    | exact (localeCmp_nonpos _ _).mpr
        (((localeCmp_nonpos _ _).mp h1).trans ((localeCmp_nonpos _ _).mp h2))
    | linarith

/-- The effective sort relation is transitive for every key and order. -/
theorem sortLe_trans (k o : String) (a b c : Method) :
    sortLe k o a b → sortLe k o b c → sortLe k o a c := by
  unfold sortLe
  split_ifs with ho
  · simp only [decide_eq_true_eq]
    intro h1 h2
    have e1 : sortComparison k b a ≤ 0 := by
      rw [sortComparison_neg k b a]
      linarith
    have e2 : sortComparison k c b ≤ 0 := by
      rw [sortComparison_neg k c b]
      linarith
    have e3 := sortComparison_trans k c b a e2 e1
    rw [sortComparison_neg k c a] at e3
    linarith
  · simp only [decide_eq_true_eq]
    exact sortComparison_trans k a b c

/-- The effective sort relation is total for every key and order. -/
theorem sortLe_total (k o : String) (a b : Method) :
    sortLe k o a b || sortLe k o b a := by
  have key : sortComparison k a b ≤ 0 ∨ sortComparison k b a ≤ 0 := by
    rcases le_or_lt (sortComparison k a b) 0 with h | h
    · exact Or.inl h
    · right
      rw [sortComparison_neg k b a]
      linarith
  rw [Bool.or_eq_true]
  unfold sortLe
  simp only [decide_eq_true_eq]
  split_ifs with ho
  · rcases key with h | h
    · right
      have := sortComparison_neg k b a
      linarith
    · left
      have := sortComparison_neg k a b
      linarith
  · exact key

/-- C8: `sortMethods` is stable — two methods with equal sort keys (the
keyed comparator gives 0) keep their relative input order, for every key and
for both orders, `desc` only negating the comparator sign. -/
theorem sortMethods_stable (methods : List Method) (sortBy order : String)
    (a b : Method) (hk : sortComparison sortBy a b = 0)
    (hsub : List.Sublist [a, b] methods) :
    List.Sublist [a, b] (sortMethods methods sortBy order) := by
  unfold sortMethods
  refine List.pair_sublist_mergeSort
    (fun x y z => sortLe_trans sortBy order x y z)
    (fun x y => sortLe_total sortBy order x y) ?_ hsub
  unfold sortLe
  rw [hk]
  split_ifs <;> simp

/-- Witness for C8: two methods both named `Alpha` keep their order under a
descending name sort of a three-method list. -/
theorem sortMethods_stable_witness :
    sortComparison "name" methodAlpha1 methodAlpha2 = 0 ∧
    List.Sublist [methodAlpha1, methodAlpha2] (sortMethods [baseMethod, methodAlpha1, methodAlpha2] "name" "desc") :=
  have hk : sortComparison "name" methodAlpha1 methodAlpha2 = 0 := by
    have h1 : methodAlpha1.name = "Alpha" := rfl
    have h2 : methodAlpha2.name = "Alpha" := rfl
    unfold sortComparison
    rw [if_pos rfl, h1, h2]
    unfold localeCmp
    rw [if_neg (lt_irrefl _), if_neg (lt_irrefl _)]
  ⟨hk,
   sortMethods_stable [baseMethod, methodAlpha1, methodAlpha2] "name" "desc"
     methodAlpha1 methodAlpha2 hk
     (List.Sublist.cons baseMethod (List.Sublist.refl [methodAlpha1, methodAlpha2]))⟩

/-- The keyed comparator at key `searchScore` subtracts the `|| 1` score
defaults. -/
theorem sortComparison_searchScore (a b : Method) :
    sortComparison "searchScore" a b = scoreOr1 a - scoreOr1 b := by
  unfold sortComparison
  rw [if_neg (by decide), if_neg (by decide), if_neg (by decide),
    if_neg (by decide), if_pos rfl]

/-- C10: a search score of exactly 0 (a perfect fuzzy match) is falsy, so
`searchScore || 1` gives it the comparator value 1 — the same worst value as
a missing score — and under ascending order such a method never sorts before
any method with a strictly positive score in Fuse's `(0, 1]` range. -/
theorem searchScore_zero_is_worst (a b c : Method) (s : ℚ)
    (ha : a.searchScore = some 0) (hb : b.searchScore = none)
    (hc : c.searchScore = some s) (hs0 : 0 < s) (hs1 : s ≤ 1) :
    scoreOr1 a = 1 ∧ scoreOr1 b = 1 ∧
    sortComparison "searchScore" a c = 1 - s ∧
    0 ≤ sortComparison "searchScore" a c ∧
    sortLe "searchScore" "asc" c a = true := by
  have h1 : scoreOr1 a = 1 := by
    unfold scoreOr1
    rw [ha]
    simp
  have h2 : scoreOr1 b = 1 := by
    unfold scoreOr1
    rw [hb]
  have h3 : scoreOr1 c = s := by
    unfold scoreOr1
    rw [hc]
    simp [hs0.ne']
  refine ⟨h1, h2, ?_, ?_, ?_⟩
  · rw [sortComparison_searchScore, h1, h3]
  · rw [sortComparison_searchScore, h1, h3]
    linarith
  · unfold sortLe
    rw [if_neg (by decide)]
    simp only [decide_eq_true_eq]
    rw [sortComparison_searchScore, h1, h3]
    linarith

/-- Witness for C10: concrete methods with score 0, no score, and score
1/2. -/
theorem searchScore_zero_is_worst_witness :
    scoreOr1 methodScoreZero = 1 ∧
    sortLe "searchScore" "asc" methodScoreHalf methodScoreZero = true :=
  ⟨(searchScore_zero_is_worst methodScoreZero baseMethod methodScoreHalf (1 / 2)
      rfl rfl rfl (by norm_num) (by norm_num)).1,
   (searchScore_zero_is_worst methodScoreZero baseMethod methodScoreHalf (1 / 2)
      rfl rfl rfl (by norm_num) (by norm_num)).2.2.2.2⟩
